import Mathlib

/-!
Verification development for the starsense backend (src/backend/*.py).

The Python source is shallowly embedded: pure computations become Lean
functions, network and datastore collaborators become explicit inputs
(oracles / `Except` outcomes), and the datastore becomes an explicit
`Database` value threaded through the operations.  Python `str` is
modelled by `String`, Python `None`-able strings by `Option String`,
floats (similarity scores, temperature) by `ℚ`, and raised exceptions
by `Except String`.
-/

namespace Starsense

/-! ## Python string helpers

Models of the Python `str` operations the source uses: `str.strip()`,
`str.split(sep, 1)` (split on the first occurrence only), and the
derived "text before the first occurrence" (`s.split(sep, 1)[0]`).
-/

/-- Model of Python `str.strip()`: drop whitespace from both ends. -/
def pyStrip (s : String) : String :=
  (((s.toList.dropWhile Char.isWhitespace).reverse.dropWhile Char.isWhitespace).reverse).asString

/-- Split a character list at the first occurrence of `sep`; `none` when
`sep` does not occur.  `sep` is assumed non-empty (all separators in the
source are). -/
def splitOn1 (sep : List Char) : List Char → Option (List Char × List Char)
  | [] => none
  | c :: cs =>
    if sep.isPrefixOf (c :: cs) then some ([], (c :: cs).drop sep.length)
    else
      match splitOn1 sep cs with
      | some (a, b) => some (c :: a, b)
      | none => none

/-- Model of Python `s.split(sep, 1)` when it yields two parts; `none`
models the one-part result whose `[1]` indexing raises `IndexError`. -/
def pySplit1 (s sep : String) : Option (String × String) :=
  (splitOn1 sep.toList s.toList).map fun p => (p.1.asString, p.2.asString)

/-- Model of Python `s.split(sep, 1)[0]`: the text before the first
occurrence of `sep`, or all of `s` when `sep` does not occur. -/
def pyBefore (s sep : String) : String :=
  match pySplit1 s sep with
  | some p => p.1
  | none => s

/-- Model of Python truthiness for an optional string (`if readme_content:`):
`None` and the empty string are falsy. -/
def pyTruthy : Option String → Bool
  | none => false
  | some s => !(s == "")

/-! ## Provider abstraction (src/backend/provider.py)

`ChatMessage` and `ChatResponse` are the dataclasses of the source.
`ChatResponse.message` is the role-to-content mapping (`Dict[str,
Optional[str]]` in the source; the code only ever stores a stripped
string, so values are modelled as `String`).
-/

/-- The `ChatMessage` dataclass: a role and a content string. -/
structure ChatMessage where
  role : String
  content : String
deriving DecidableEq, Repr

/-- The shape of a response dict returned by the local (Ollama) chat
backend, as far as `OllamaProvider.chat_completion` inspects it:
whether the value is a dict at all, the `message` key (itself a dict of
string fields) when present, and the top-level `content` key when
present. -/
structure OllamaResponse where
  isDict : Bool
  message : Option (List (String × String))
  content : Option String
deriving DecidableEq, Repr

/-- The `ChatResponse` dataclass: the produced role-to-content mapping
plus the raw backend payload. -/
structure ChatResponse where
  message : List (String × String)
  raw_response : OllamaResponse
deriving DecidableEq, Repr

/-- Embedding of the response-handling part of
`OllamaProvider.chat_completion` (provider.py lines 118-137).  The
backend call itself is modelled by passing the backend's response value
as input.  Raised `ValueError` becomes `Except.error`. -/
def ollama_chat_completion (response : OllamaResponse) : Except String ChatResponse :=
  if response.isDict && response.message.isSome then
    let message_content := ((response.message.getD []).lookup "content").getD ""
    let message_content :=
      if message_content == "" && response.content.isSome then
        response.content.getD ""
      else message_content
    .ok { message := [("assistant", pyStrip message_content)], raw_response := response }
  else
    .error "Invalid response structure from Ollama"

/-! ## Repository store (src/backend/db.py)

The PostgreSQL `repositories` table becomes an explicit `Database`
value: a list of rows plus the next serial id.  A write operation
returns the updated database (modelling the committed transaction).
-/

/-- The `repo_info` dict assembled by the ingestion pipeline and passed
to `store_repository` (ingest.py lines 62-70). -/
structure RepoInfo where
  name : String
  full_name : String
  description : Option String
  readme : Option String
  url : String
  language : Option String
  stars : Nat
deriving DecidableEq, Repr

/-- One row of the `repositories` table, with the columns named in the
INSERT of `store_repository`. -/
structure RepoRow where
  id : Nat
  github_username : String
  name : String
  full_name : String
  readme : Option String
  description : Option String
  url : String
  language : Option String
  stars : Nat
deriving DecidableEq, Repr

/-- The state of the `repositories` table: its rows in insertion order
and the next value of the serial `id` column. -/
structure Database where
  rows : List RepoRow
  nextId : Nat
deriving DecidableEq, Repr

/-- The row inserted by `store_repository` for a fresh qualified name. -/
def newRepoRow (github_username : String) (repo_info : RepoInfo) (id : Nat) : RepoRow :=
  { id := id
    github_username := github_username
    name := repo_info.name
    full_name := repo_info.full_name
    readme := repo_info.readme
    description := repo_info.description
    url := repo_info.url
    language := repo_info.language
    stars := repo_info.stars }

/-- Embedding of `store_repository` (db.py lines 21-56), happy path:
first look up an existing row with the same `full_name` (the SELECT;
`fetchone` returns the first match); if found return its id with the
database unchanged, otherwise insert a new row (the INSERT RETURNING
id, followed by COMMIT — modelled by returning the updated database). -/
def store_repository (github_username : String) (repo_info : RepoInfo)
    (db : Database) : Nat × Database :=
  match db.rows.find? (fun r => r.full_name == repo_info.full_name) with
  | some existing_repo => (existing_repo.id, db)
  | none =>
    (db.nextId,
     { rows := db.rows ++ [newRepoRow github_username repo_info db.nextId]
       nextId := db.nextId + 1 })

/-- The `combined_text` column computed inside the search SQL:
`CONCAT('name: ', name, ' url: ', url, ' content: ', description)`.
PostgreSQL `CONCAT` renders a NULL argument as the empty string. -/
def combined_text (r : RepoRow) : String :=
  "name: " ++ r.name ++ " url: " ++ r.url ++ " content: " ++ r.description.getD ""

/-- Embedding of `search_for_repos` (db.py lines 58-100).  The inner
subquery — embedding the query text with the datastore-side model,
ranking every stored chunk by vector distance and taking the `limit`
closest — is a datastore collaborator capability (spec section 4.2) and
is modelled by the `datastore` oracle, which yields either the ranked
`(id, distance)` rows in ascending distance order or a raised datastore
error.  The function body then joins each row to the `repositories`
table, builds `combined_text`, and computes `similarity = 1 - distance`;
the outer `ORDER BY similarity_score DESC` is the identity on rows
already ordered by ascending distance and is modelled as such.  The
source wraps the body in no `try/except`: whatever the datastore raises
propagates to the caller as-is (only the connection is closed in
`finally`). -/
def search_for_repos (db : Database)
    (datastore : String → Nat → Except String (List (Nat × ℚ)))
    (query : String) (limit : Nat := 5) : Except String (List (String × ℚ)) :=
  match datastore query limit with
  | .error e => .error e
  | .ok ranked =>
    .ok (ranked.filterMap fun ir =>
      (db.rows.find? fun r => r.id == ir.1).map fun r => (combined_text r, 1 - ir.2))

/-! ## Ingestion pipeline (src/backend/ingest.py)

The GitHub star-list API becomes an explicit list of pages of items,
the README API becomes an oracle from qualified name to fetch outcome,
and the `send_status` callback becomes an event trace: the run is
modelled as a function from those inputs (plus the initial database) to
the emitted event trace, the aggregate result, and the final database.
-/

/-- One item of the starred-repository listing, with the fields the
pipeline reads (`name`, `full_name`, `description`, `html_url`,
`language`, `stargazers_count`). -/
structure Repo where
  name : String
  full_name : String
  description : Option String
  html_url : String
  language : Option String
  stargazers_count : Nat
deriving DecidableEq, Repr

/-- Outcome of the HTTP GET against the README endpoint: a response
with a status code and (base64-encoded) body, or a network error
(`requests.RequestException`). -/
inductive ReadmeOutcome where
  | success (status : Nat) (content : String)
  | netError (msg : String)
deriving DecidableEq, Repr

/-- Embedding of `fetch_readme` (ingest.py lines 99-115): status 200
returns the base64-decoded UTF-8 text (the decoding pair is modelled by
the `decode` parameter), any other status returns `None` (README
absent), and a `requests.RequestException` is caught, logged, and also
returns `None`. -/
def fetch_readme (decode : String → String) (outcome : ReadmeOutcome) : Option String :=
  match outcome with
  | .success status content => if status == 200 then some (decode content) else none
  | .netError _ => none

/-- An observable step of one ingestion run: a progress status sent to
the callback, the README fetch for an item, the store write for an
item, or the terminal COMPLETE status. -/
inductive Event where
  | progress (current_repo : String) (processed_count : Nat) (total_count : Nat)
  | fetchReadme (repo : String) (result : Option String)
  | storeWrite (repo : String)
  | complete
deriving DecidableEq, Repr

/-- The `repo_info` dict built for one item (ingest.py lines 62-70). -/
def mkRepoInfo (repo : Repo) (readme_content : Option String) : RepoInfo :=
  { name := repo.name
    full_name := repo.full_name
    description := repo.description
    readme := readme_content
    url := repo.html_url
    language := repo.language
    stars := repo.stargazers_count }

/-- The aggregate result dict returned by a completed ingestion run. -/
structure IngestResult where
  github_username : String
  repos_processed : Nat
  repositories : List RepoInfo
  status : String
deriving DecidableEq, Repr

/-- Embedding of the inner `for index, repo in enumerate(starred_repos)`
loop of `fetch_and_process_user_stars` (ingest.py lines 48-79), for one
page.  For each item in page order: emit the progress event (current
name, `len(processed_repos)`, total), fetch the README, build
`repo_info`, store it when the README content is truthy (non-`None` and
non-empty), and append `repo_info` to `processed_repos`
unconditionally.  `readme` is the composed README fetch (in the source,
`fetch_readme`). -/
def process_repos (readme : String → Option String) (github_username : String)
    (total : Nat) :
    List Repo → List RepoInfo → Database → List Event × List RepoInfo × Database
  | [], processed, db => ([], processed, db)
  | repo :: rest, processed, db =>
    let readme_content := readme repo.full_name
    let info := mkRepoInfo repo readme_content
    let db' := if pyTruthy readme_content then (store_repository github_username info db).2 else db
    let storeEvs := if pyTruthy readme_content then [Event.storeWrite repo.full_name] else []
    let next := process_repos readme github_username total rest (processed ++ [info]) db'
    (Event.progress repo.full_name processed.length total
       :: Event.fetchReadme repo.full_name readme_content
       :: (storeEvs ++ next.1),
     next.2.1, next.2.2)

/-- Embedding of the outer `while True` pagination loop (ingest.py
lines 36-86): the star-list API is modelled by the explicit list of
pages it serves; an empty page breaks out of the loop before processing
(`if not starred_repos: break`), and running past the last served page
models the missing `next` link relation. -/
def process_pages (readme : String → Option String) (github_username : String)
    (total : Nat) :
    List (List Repo) → List RepoInfo → Database → List Event × List RepoInfo × Database
  | [], processed, db => ([], processed, db)
  | page :: pages, processed, db =>
    if page.isEmpty then ([], processed, db)
    else
      let first := process_repos readme github_username total page processed db
      let rest := process_pages readme github_username total pages first.2.1 first.2.2
      (first.1 ++ rest.1, rest.2.1, rest.2.2)

/-- Embedding of `fetch_and_process_user_stars` (ingest.py lines 16-93):
`total` is the star count parsed from the Link header of the initial
request (modelled as an input), the pages are processed in order, a
terminal COMPLETE status is emitted after the last page, and the
aggregate result dict is returned. -/
def fetch_and_process_user_stars (readme : String → Option String)
    (github_username : String) (total : Nat) (pages : List (List Repo))
    (db : Database) : List Event × IngestResult × Database :=
  let run := process_pages readme github_username total pages [] db
  (run.1 ++ [Event.complete],
   { github_username := github_username
     repos_processed := run.2.1.length
     repositories := run.2.1
     status := "success" },
   run.2.2)

/-- Specification-side description of the events one item contributes
to the trace: its progress event (at global index `k`), its README
fetch, and a store write exactly when the README content is truthy. -/
def itemBlock (readme : String → Option String) (k total : Nat) (repo : Repo) :
    List Event :=
  Event.progress repo.full_name k total
    :: Event.fetchReadme repo.full_name (readme repo.full_name)
    :: (if pyTruthy (readme repo.full_name) then [Event.storeWrite repo.full_name] else [])

/-- Specification-side description of the whole trace of a run over an
item list, starting at global index `k`: the items' blocks in source
order. -/
def itemBlocks (readme : String → Option String) (total : Nat) :
    Nat → List Repo → List Event
  | _, [] => []
  | k, repo :: rest => itemBlock readme k total repo ++ itemBlocks readme total (k + 1) rest

/-- Specification-side list of the progress events of a run over an
item list: one per item, in source order, with running counts. -/
def progressList (total : Nat) : Nat → List Repo → List Event
  | _, [] => []
  | k, repo :: rest => Event.progress repo.full_name k total :: progressList total (k + 1) rest

/-- Whether an event is a progress status. -/
def isProgress : Event → Bool
  | .progress .. => true
  | _ => false

/-! ## Retrieval pipeline (src/backend/retrieval.py) -/

/-- Model of the Python expression `f"{score*100:.1f}"`: scale the
score to tenths of a percent, round, and render `whole.tenth`.  The
rounded value `t` is `⌊score * 1000 + 1/2⌋`, computed on the score's
numerator and denominator so that it evaluates by kernel reduction
(`fmtPercent_floor` below proves the two agree).  Python rounds the
underlying double half-to-even; this model rounds half-up, which agrees
at every score whose scaled value is not an exact half — in particular
at the concrete scores considered here. -/
def fmtPercent (score : ℚ) : String :=
  let t : Int := Int.fdiv (2000 * score.num + (score.den : Int)) (2 * (score.den : Int))
  toString (t / 10) ++ "." ++ toString (t % 10).natAbs

/-- Embedding of the body of the `for repo in repos` loop of
`format_repo_context` (retrieval.py lines 18-32): split the combined
text on the first `name:`, `url:`, `content:` markers (a missing marker
makes the corresponding `[1]` indexing raise `IndexError`, caught by the
`except IndexError` arm, modelled by `none`) and render the markdown
line with the relevance percentage. -/
def parseRepoLine (combined : String) (score : ℚ) : Option String :=
  match pySplit1 combined "name:" with
  | none => none
  | some np =>
    let name_part := pyStrip (pyBefore np.2 "url:")
    match pySplit1 combined "url:" with
    | none => none
    | some up =>
      let url_part := pyStrip (pyBefore up.2 "content:")
      match pySplit1 combined "content:" with
      | none => none
      | some cp =>
        let content_part := pyStrip cp.2
        some ("[" ++ name_part ++ "](" ++ url_part ++ ") - " ++ content_part
          ++ " *Relevance: " ++ fmtPercent score ++ "%*")

/-- Embedding of `format_repo_context` (retrieval.py lines 13-39):
start with the query header, append one rendered line per well-formed
search result (malformed results are skipped with a warning), append
the relevance note (the `if context:` guard is always true since the
header is present), and join with newlines. -/
def format_repo_context (repos : List (String × ℚ)) (query : String) : String :=
  let header := "# Your Starred Repositories Related to \"" ++ query ++ "\""
  let entries := repos.filterMap fun repo => parseRepoLine repo.1 repo.2
  let note := "\nNote: The relevance scores are based on the similarity of the repository names and descriptions to the query."
  String.intercalate "\n" (header :: (entries ++ [note]))

/-- A Python value returned by `generate_response`: the source's type
annotation promises `str`, but the non-format-only branch returns the
`ChatResponse` object itself, so the embedded return type is the union
of the two. -/
inductive PyValue where
  | str (s : String)
  | chatResponse (r : ChatResponse)
deriving DecidableEq, Repr

/-- The fixed system instruction of `generate_response`. -/
def system_prompt : String :=
  "You are a technical assistant specializing in analyzing GitHub repositories.\nProvide concise, structured responses that:\n1. Focus on how each repository specifically addresses the user\x27s query\n2. Highlight key technical features and capabilities\n3. Keep explanations brief and to the point\n4. Use markdown formatting appropriately"

/-- The user instruction of `generate_response`, embedding the rendered
repository context. -/
def user_prompt (repo_context : String) : String :=
  "Based on the following repository information, provide a structured response that helps the user understand the most relevant repositories for their query.\n\n"
    ++ repo_context
    ++ "\n\nFocus on concrete technical details rather than general statements."

/-- Embedding of `generate_response` (retrieval.py lines 41-84).  The
provider is modelled as a function from the message list, `max_tokens`
and `temperature` to the successful `ChatResponse` (the claim under
study concerns the path on which the chat completion succeeds).  A
datastore error raised inside the search propagates.  The format-only
branch returns the rendered context string; the other branch returns
the value of `provider.chat_completion(...)` itself — the `ChatResponse`
object, not its text. -/
def generate_response (db : Database)
    (datastore : String → Nat → Except String (List (Nat × ℚ)))
    (provider : List ChatMessage → Nat → ℚ → ChatResponse)
    (query : String) (format_only : Bool := false) : Except String PyValue :=
  match search_for_repos db datastore query 5 with
  | .error e => .error e
  | .ok similar_repos =>
    let repo_context := format_repo_context similar_repos query
    if format_only then
      .ok (PyValue.str repo_context)
    else
      let messages := [ChatMessage.mk "system" system_prompt,
                       ChatMessage.mk "user" (user_prompt repo_context)]
      .ok (PyValue.chatResponse (provider messages 1000 (1 / 10)))

/-! ## Concrete fixtures used by witnesses and counterexamples -/

/-- A concrete starred-repository item. -/
def repo0 : Repo :=
  { name := "lens"
    full_name := "owner/lens"
    description := some "a lens library"
    html_url := "https://site/owner/lens"
    language := some "Rust"
    stargazers_count := 7 }

/-- A concrete `repo_info` value. -/
def info0 : RepoInfo :=
  { name := "lens"
    full_name := "owner/lens"
    description := some "a lens library"
    readme := some "hello"
    url := "https://site/owner/lens"
    language := some "Rust"
    stars := 7 }

/-- A README oracle on which every fetch reports an absent README. -/
def noReadme : String → Option String := fun _ => none

/-- A README oracle on which every fetch succeeds with empty decoded
content. -/
def emptyReadme : String → Option String := fun _ => some ""

/-- A concrete provider whose chat completion always succeeds with the
answer "A". -/
def provider0 : List ChatMessage → Nat → ℚ → ChatResponse :=
  fun _ _ _ =>
    { message := [("assistant", "A")]
      raw_response := { isDict := true, message := some [("content", "A")], content := none } }

/-- Interpretation of the spec phrase "wrapped with context", following
the convention of `store_repository` in the same source file (which
re-raises a new exception whose message embeds the original): the
propagated message differs from the original and contains it. -/
def wrapsWithContext (original propagated : String) : Prop :=
  propagated ≠ original ∧ ∃ a b, propagated = a ++ original ++ b

/-! ## General lemmas about the embedded operations -/

/-- The integer rendered by `fmtPercent` is the score scaled to tenths
of a percent and rounded half-up. -/
theorem fmtPercent_floor (q : ℚ) :
    Int.fdiv (2000 * q.num + (q.den : Int)) (2 * (q.den : Int)) = ⌊q * 1000 + 1 / 2⌋ := by
  have hd0 : (q.den : ℚ) ≠ 0 := Nat.cast_ne_zero.mpr q.den_nz
  have h1 : (q * 1000 + 1 / 2 : ℚ)
      = ((2000 * q.num + (q.den : Int) : ℤ) : ℚ) / ((2 * q.den : ℕ) : ℚ) := by
    conv_lhs => rw [show q = (q.num : ℚ) / (q.den : ℚ) from (Rat.num_div_den q).symm]
    push_cast
    field_simp
    ring
  have h2 : ((2 * q.den : ℕ) : ℤ) = 2 * (q.den : ℤ) := by push_cast; ring
  rw [h1, Rat.floor_intCast_div_natCast, ← h2]
  exact Int.fdiv_eq_ediv _ (by positivity)

/-- A predicate that fails on all of `l₁` makes `find?` on an appended
list look only at `l₂`. -/
theorem find?_append_of_none {α : Type} (p : α → Bool) :
    ∀ {l₁ : List α}, l₁.find? p = none → ∀ l₂ : List α, (l₁ ++ l₂).find? p = l₂.find? p
  | [], _, _ => rfl
  | a :: l, h, l₂ => by
    rw [List.find?_cons] at h
    cases hpa : p a with
    | true => rw [hpa] at h; exact absurd h (by simp)
    | false =>
      rw [hpa] at h
      rw [List.cons_append, List.find?_cons, hpa]
      exact find?_append_of_none p h l₂

/-- The per-item event blocks of the concatenation of two item lists. -/
theorem itemBlocks_append (readme : String → Option String) (total : Nat) :
    ∀ (l₁ l₂ : List Repo) (k : Nat),
      itemBlocks readme total k (l₁ ++ l₂)
        = itemBlocks readme total k l₁ ++ itemBlocks readme total (k + l₁.length) l₂ := by
  intro l₁
  induction l₁ with
  | nil => intro l₂ k; simp [itemBlocks]
  | cons r rs ih =>
    intro l₂ k
    rw [List.cons_append]
    simp only [itemBlocks, ih l₂ (k + 1), List.length_cons, List.append_assoc]
    have : k + 1 + rs.length = k + (rs.length + 1) := by omega
    rw [this]

/-- Structure of one page worth of processing: the emitted events are
exactly the per-item blocks (progress, then README fetch, then a store
write iff the content is truthy), indexed from the running count, and
every item's `repo_info` is appended to the processed list. -/
theorem process_repos_spec (readme : String → Option String) (u : String) (total : Nat) :
    ∀ (rs : List Repo) (acc : List RepoInfo) (db : Database),
      (process_repos readme u total rs acc db).1 = itemBlocks readme total acc.length rs
      ∧ (process_repos readme u total rs acc db).2.1
          = acc ++ rs.map fun r => mkRepoInfo r (readme r.full_name) := by
  intro rs
  induction rs with
  | nil => intro acc db; simp [process_repos, itemBlocks]
  | cons r rs ih =>
    intro acc db
    constructor
    · simp only [process_repos, itemBlocks, itemBlock]
      cases hrc : pyTruthy (readme r.full_name) <;>
        simp [hrc, (ih (acc ++ [mkRepoInfo r (readme r.full_name)]) _).1,
          List.length_append]
    · simp only [process_repos, List.map_cons]
      cases hrc : pyTruthy (readme r.full_name) <;>
        simp [hrc, (ih (acc ++ [mkRepoInfo r (readme r.full_name)]) _).2]

/-- Structure of a whole multi-page run (no page served empty): the
events are the blocks of the concatenated items and the processed list
collects every walked item, across page boundaries. -/
theorem process_pages_spec (readme : String → Option String) (u : String) (total : Nat) :
    ∀ (pages : List (List Repo)), (∀ p ∈ pages, p ≠ []) →
      ∀ (acc : List RepoInfo) (db : Database),
      (process_pages readme u total pages acc db).1
          = itemBlocks readme total acc.length pages.flatten
      ∧ (process_pages readme u total pages acc db).2.1
          = acc ++ pages.flatten.map fun r => mkRepoInfo r (readme r.full_name) := by
  intro pages
  induction pages with
  | nil => intro _ acc db; simp [process_pages, itemBlocks]
  | cons p ps ih =>
    intro h acc db
    have hp : p.isEmpty = false := by
      have := h p (List.mem_cons_self p ps)
      cases p with
      | nil => exact absurd rfl this
      | cons a l => rfl
    have hps := ih (fun q hq => h q (List.mem_cons_of_mem p hq))
    have hfirst := process_repos_spec readme u total p acc db
    constructor
    · simp only [process_pages, hp, Bool.false_eq_true, if_false, List.flatten]
      rw [hfirst.1, (hps _ _).1, hfirst.2, itemBlocks_append]
      simp [List.length_append]
    · simp only [process_pages, hp, Bool.false_eq_true, if_false, List.flatten]
      rw [(hps _ _).2, hfirst.2]
      simp [List.map_append]

/-- Filtering the per-item blocks down to progress events yields exactly
one progress event per item, in item order, with running counts. -/
theorem itemBlocks_filter_progress (readme : String → Option String) (total : Nat) :
    ∀ (l : List Repo) (k : Nat),
      (itemBlocks readme total k l).filter isProgress = progressList total k l := by
  intro l
  induction l with
  | nil => intro k; rfl
  | cons r rs ih =>
    intro k
    simp only [itemBlocks, itemBlock, progressList, List.filter_append, List.filter_cons]
    cases hrc : pyTruthy (readme r.full_name) <;>
      simp [isProgress, ih (k + 1)]

/-- A combined text missing any of the three markers is skipped by the
line parser (`IndexError` caught). -/
theorem parseRepoLine_none_of_missing (t : String) (s : ℚ)
    (h : pySplit1 t "name:" = none ∨ pySplit1 t "url:" = none
      ∨ pySplit1 t "content:" = none) :
    parseRepoLine t s = none := by
  rcases h with h | h | h
  · simp [parseRepoLine, h]
  · cases h1 : pySplit1 t "name:" <;> simp [parseRepoLine, h1, h]
  · cases h1 : pySplit1 t "name:" <;> cases h2 : pySplit1 t "url:" <;>
      simp [parseRepoLine, h1, h2, h]

/-! ## Claim C1: Ollama response normalization -/

/-- C1, counterexample: a backend response carrying the content directly
at the top level (`{content: "hello"}`, no `message` key) is NOT
normalized — `chat_completion` raises the "invalid response structure"
error on it, although the claim says this shape normalizes to the same
Chat Response as `{message: {content: "hello"}}`. -/
theorem ollama_top_level_only_content_rejected :
    ollama_chat_completion { isDict := true, message := none, content := some "hello" }
      = Except.error "Invalid response structure from Ollama" := rfl

/-- C1, amended: the nested shape `{message: {content: c}}` and the
fallback shape `{message: {}, content: c}` (top-level content is read
only when a `message` key is present whose content is empty) normalize
to the same assistant message mapping for equal content `c`, and
`chat_completion` fails with the "invalid response structure" error
exactly when the response is not a dict or has no `message` key. -/
theorem ollama_chat_completion_normalization (c : String) (resp : OllamaResponse) :
    (ollama_chat_completion { isDict := true, message := some [("content", c)], content := none }).map
        ChatResponse.message = .ok [("assistant", pyStrip c)]
    ∧ (ollama_chat_completion { isDict := true, message := some [], content := some c }).map
        ChatResponse.message = .ok [("assistant", pyStrip c)]
    ∧ (ollama_chat_completion resp = .error "Invalid response structure from Ollama"
        ↔ ¬(resp.isDict = true ∧ resp.message.isSome = true)) := by
  refine ⟨?_, ?_, ?_⟩
  · simp [ollama_chat_completion, List.lookup, Except.map]
  · simp [ollama_chat_completion, List.lookup, Except.map]
  · cases hd : resp.isDict <;> cases hm : resp.message <;>
      simp [ollama_chat_completion, hd, hm]

/-! ## Claim C4: README network errors are not propagated -/

/-- C4, counterexample: at the concrete outcome "network error with
message timeout", `fetch_readme` returns `None` — exactly the
absent-README result it returns for a 404 — instead of wrapping and
propagating the error as the claim states; no exception leaves
`fetch_readme` at all (`requests.RequestException` is caught, logged,
and turned into `None`). -/
theorem fetch_readme_netError_swallowed :
    fetch_readme id (.netError "timeout") = none
      ∧ fetch_readme id (.netError "timeout") = fetch_readme id (.success 404 "x") :=
  ⟨rfl, rfl⟩

/-- C4, amended: a network error contacting the README backend is not
retried and is not propagated: it is caught and the item is treated as
having an absent README (`None`), the same result as any non-success
status. -/
theorem fetch_readme_netError_absent (decode : String → String) (msg : String)
    (status : Nat) (content : String) (h : status ≠ 200) :
    fetch_readme decode (.netError msg) = none
      ∧ fetch_readme decode (.success status content) = none := by
  refine ⟨rfl, ?_⟩
  simp [fetch_readme, h]

/-- Witness for `fetch_readme_netError_absent` at status 404. -/
theorem fetch_readme_netError_absent_witness :
    (404 ≠ 200)
      ∧ (fetch_readme id (.netError "timeout") = none
          ∧ fetch_readme id (.success 404 "x") = none) :=
  ⟨by decide, fetch_readme_netError_absent id "timeout" 404 "x" (by decide)⟩

/-! ## Claim C5: search error propagation -/

/-- C5, counterexample: when the datastore raises "boom" during the
search, `search_for_repos` propagates the error message verbatim — the
propagated message equals the original, so it is not wrapped with
context as the claim states (the source has no `try/except` around the
search body; only the connection is closed in `finally`). -/
theorem search_for_repos_error_not_wrapped :
    search_for_repos { rows := [], nextId := 0 } (fun _ _ => .error "boom") "q" 5
        = .error "boom"
      ∧ ¬ wrapsWithContext "boom" "boom" :=
  ⟨rfl, fun h => h.1 rfl⟩

/-- C5, amended: any datastore error raised during the search operation
propagates to the caller unchanged (not wrapped with added context),
and a failed search never returns a result list — it fails only by
raising. -/
theorem search_for_repos_error_propagation (db : Database)
    (ds : String → Nat → Except String (List (Nat × ℚ))) (q : String) (l : Nat)
    (e : String) (h : ds q l = .error e) :
    search_for_repos db ds q l = .error e
      ∧ ∀ rs, search_for_repos db ds q l ≠ .ok rs := by
  refine ⟨by simp [search_for_repos, h], fun rs hc => ?_⟩
  simp [search_for_repos, h] at hc

/-- Witness for `search_for_repos_error_propagation` at the error
"boom". -/
theorem search_for_repos_error_propagation_witness :
    ((fun (_ : String) (_ : Nat) => (Except.error "boom" : Except String (List (Nat × ℚ)))) "q" 5
        = .error "boom")
      ∧ (search_for_repos { rows := [], nextId := 0 } (fun _ _ => .error "boom") "q" 5
            = .error "boom"
          ∧ ∀ rs, search_for_repos { rows := [], nextId := 0 } (fun _ _ => .error "boom") "q" 5
              ≠ .ok rs) :=
  ⟨rfl, search_for_repos_error_propagation _ _ _ _ _ rfl⟩

/-! ## Claim C9: context formatting round trip -/

set_option maxRecDepth 10000 in
/-- C9: for a Search Result with combined text
"name: X url: Y content: Z" and similarity score 0.873, the rendered
context contains the markdown link and description "[X](Y) - Z" and the
formatted relevance percentage "Relevance: 87.3%" (one decimal place,
score times 100). -/
theorem format_repo_context_round_trip :
    (∃ a b, format_repo_context [("name: X url: Y content: Z", mkRat 873 1000)] "q"
        = a ++ "[X](Y) - Z" ++ b)
    ∧ (∃ a b, format_repo_context [("name: X url: Y content: Z", mkRat 873 1000)] "q"
        = a ++ "Relevance: 87.3%" ++ b) :=
  ⟨⟨"# Your Starred Repositories Related to \"q\"\n",
    " *Relevance: 87.3%*\n\nNote: The relevance scores are based on the similarity of the repository names and descriptions to the query.",
    by decide⟩,
   ⟨"# Your Starred Repositories Related to \"q\"\n[X](Y) - Z *",
    "*\n\nNote: The relevance scores are based on the similarity of the repository names and descriptions to the query.",
    by decide⟩⟩

/-! ## Claim C2: what repos_processed counts -/

/-- C2, counterexample: a run over one page with one item whose README
is absent returns `repos_processed = 1`, although the number of items
with a non-absent README is 0 — `processed_repos.append(repo_info)`
runs for every walked item, inside and outside the README branch. -/
theorem repos_processed_counts_absent_readme :
    (fetch_and_process_user_stars noReadme "alice" 1 [[repo0]]
        { rows := [], nextId := 0 }).2.1.repos_processed = 1
    ∧ ([[repo0]].flatten.filter fun r => (noReadme r.full_name).isSome).length = 0 :=
  ⟨rfl, rfl⟩

/-- C2, amended: for every completed run over pages none of which is
empty, `repos_processed` equals the total number of items walked,
regardless of whether their READMEs were absent. -/
theorem repos_processed_eq_items_walked (readme : String → Option String) (u : String)
    (total : Nat) (pages : List (List Repo)) (db : Database)
    (h : ∀ p ∈ pages, p ≠ []) :
    (fetch_and_process_user_stars readme u total pages db).2.1.repos_processed
      = pages.flatten.length := by
  have hspec := process_pages_spec readme u total pages h [] db
  simp only [fetch_and_process_user_stars]
  rw [hspec.2]
  simp only [List.nil_append, List.length_map]

/-- Witness for `repos_processed_eq_items_walked` on a one-page,
one-item source. -/
theorem repos_processed_eq_items_walked_witness :
    (∀ p ∈ [[repo0]], p ≠ ([] : List Repo))
    ∧ (fetch_and_process_user_stars noReadme "alice" 1 [[repo0]]
          { rows := [], nextId := 0 }).2.1.repos_processed = [[repo0]].flatten.length :=
  ⟨by simp, repos_processed_eq_items_walked noReadme "alice" 1 [[repo0]]
    { rows := [], nextId := 0 } (by simp)⟩

/-! ## Claim C7: event ordering within one run -/

/-- C7: over a paginated source none of whose pages is empty, the trace
of a run is exactly the per-item blocks in source order followed by the
terminal COMPLETE event — so exactly one progress event is emitted per
item, in the order the pages list the items; each item's README fetch
(and store write, when it happens) lies between that item's progress
event and the next one; COMPLETE comes after the last item and is part
of the trace handed back with (hence before) the aggregate result.  The
second conjunct makes the progress-event claim explicit: filtering the
trace to progress events yields one event per item, in source order,
with running counts. -/
theorem fetch_and_process_trace (readme : String → Option String) (u : String)
    (total : Nat) (pages : List (List Repo)) (db : Database)
    (h : ∀ p ∈ pages, p ≠ []) :
    (fetch_and_process_user_stars readme u total pages db).1
        = itemBlocks readme total 0 pages.flatten ++ [Event.complete]
    ∧ (fetch_and_process_user_stars readme u total pages db).1.filter isProgress
        = progressList total 0 pages.flatten := by
  have hspec := process_pages_spec readme u total pages h [] db
  have hT : (fetch_and_process_user_stars readme u total pages db).1
      = itemBlocks readme total 0 pages.flatten ++ [Event.complete] := by
    simp only [fetch_and_process_user_stars]
    rw [hspec.1]
    rfl
  refine ⟨hT, ?_⟩
  rw [hT, List.filter_append, itemBlocks_filter_progress]
  simp [isProgress]

/-- Witness for `fetch_and_process_trace` on a one-page, one-item
source. -/
theorem fetch_and_process_trace_witness :
    (∀ p ∈ [[repo0]], p ≠ ([] : List Repo))
    ∧ ((fetch_and_process_user_stars noReadme "alice" 1 [[repo0]]
            { rows := [], nextId := 0 }).1
          = itemBlocks noReadme 1 0 [[repo0]].flatten ++ [Event.complete]
      ∧ (fetch_and_process_user_stars noReadme "alice" 1 [[repo0]]
            { rows := [], nextId := 0 }).1.filter isProgress
          = progressList 1 0 [[repo0]].flatten) :=
  ⟨by simp, fetch_and_process_trace noReadme "alice" 1 [[repo0]]
    { rows := [], nextId := 0 } (by simp)⟩

/-! ## Claim C10: empty-but-present README is treated as absent -/

/-- C10: an item whose README fetch succeeds with empty decoded content
is treated exactly like a README-absent item: its block contains no
store write and the database reaches the rest of the loop unchanged
(first conjunct, which exposes the whole step); the persistence
decision tests truthiness, on which `some ""` and `none` agree (second
conjunct); yet the item's `repo_info` is still in the returned per-item
list (third conjunct) and counted in the processed total (fourth
conjunct), and its progress event is still emitted (visible in the
first conjunct). -/
theorem empty_readme_not_persisted (readme : String → Option String) (u : String)
    (total : Nat) (r : Repo) (rs : List Repo) (acc : List RepoInfo) (db : Database)
    (h : readme r.full_name = some "") :
    process_repos readme u total (r :: rs) acc db
      = (Event.progress r.full_name acc.length total
          :: Event.fetchReadme r.full_name (some "")
          :: (process_repos readme u total rs (acc ++ [mkRepoInfo r (some "")]) db).1,
         (process_repos readme u total rs (acc ++ [mkRepoInfo r (some "")]) db).2)
    ∧ pyTruthy (readme r.full_name) = pyTruthy none
    ∧ mkRepoInfo r (some "") ∈ (process_repos readme u total (r :: rs) acc db).2.1
    ∧ (process_repos readme u total (r :: rs) acc db).2.1.length
        = acc.length + (rs.length + 1) := by
  have htr : pyTruthy (readme r.full_name) = false := by rw [h]; rfl
  refine ⟨?_, by rw [htr]; rfl, ?_, ?_⟩
  · simp [process_repos, h, pyTruthy]
  · rw [(process_repos_spec readme u total (r :: rs) acc db).2]
    simp [h]
  · rw [(process_repos_spec readme u total (r :: rs) acc db).2]
    simp

/-- Witness for `empty_readme_not_persisted` on a single item whose
README fetch yields empty content. -/
theorem empty_readme_not_persisted_witness :
    emptyReadme repo0.full_name = some ""
    ∧ (process_repos emptyReadme "alice" 1 [repo0] [] { rows := [], nextId := 0 }
        = (Event.progress repo0.full_name ([] : List RepoInfo).length 1
            :: Event.fetchReadme repo0.full_name (some "")
            :: (process_repos emptyReadme "alice" 1 []
                  ([] ++ [mkRepoInfo repo0 (some "")]) { rows := [], nextId := 0 }).1,
           (process_repos emptyReadme "alice" 1 []
              ([] ++ [mkRepoInfo repo0 (some "")]) { rows := [], nextId := 0 }).2)
      ∧ pyTruthy (emptyReadme repo0.full_name) = pyTruthy none
      ∧ mkRepoInfo repo0 (some "")
          ∈ (process_repos emptyReadme "alice" 1 [repo0] [] { rows := [], nextId := 0 }).2.1
      ∧ (process_repos emptyReadme "alice" 1 [repo0] []
            { rows := [], nextId := 0 }).2.1.length
          = ([] : List RepoInfo).length + (([] : List Repo).length + 1)) :=
  ⟨rfl, empty_readme_not_persisted emptyReadme "alice" 1 repo0 [] []
    { rows := [], nextId := 0 } rfl⟩

/-! ## Claim C6: idempotent store -/

/-- C6: `store_repository` returns an existing row's id without
writing when one with the same qualified name is present (first
conjunct); otherwise inserts the new row, commits, and returns the new
id (second conjunct); calling it twice in sequence with the same
qualified name returns the same id and the same database (third
conjunct) and, starting from a store without that qualified name,
leaves exactly one stored record with it (fourth conjunct). -/
theorem store_repository_idempotent (u : String) (info : RepoInfo) (db : Database) :
    (∀ r, db.rows.find? (fun x => x.full_name == info.full_name) = some r →
        store_repository u info db = (r.id, db))
    ∧ (db.rows.find? (fun x => x.full_name == info.full_name) = none →
        store_repository u info db
          = (db.nextId,
             { rows := db.rows ++ [newRepoRow u info db.nextId]
               nextId := db.nextId + 1 }))
    ∧ store_repository u info (store_repository u info db).2 = store_repository u info db
    ∧ ((∀ r ∈ db.rows, r.full_name ≠ info.full_name) →
        ((store_repository u info (store_repository u info db).2).2.rows.filter
            (fun x => x.full_name == info.full_name)).length = 1) := by
  refine ⟨fun r hr => by simp [store_repository, hr],
          fun hn => by simp [store_repository, hn], ?_, ?_⟩
  · cases hfind : db.rows.find? (fun x => x.full_name == info.full_name) with
    | some r => simp [store_repository, hfind]
    | none =>
      have hfind2 : (db.rows ++ [newRepoRow u info db.nextId]).find?
          (fun x => x.full_name == info.full_name) = some (newRepoRow u info db.nextId) := by
        rw [find?_append_of_none _ hfind]
        rw [List.find?_cons_of_pos]
        simp [newRepoRow]
      simp [store_repository, hfind, hfind2, newRepoRow]
  · intro hall
    have hfind : db.rows.find? (fun x => x.full_name == info.full_name) = none := by
      rw [List.find?_eq_none]
      intro x hx
      simpa using hall x hx
    have hfind2 : (db.rows ++ [newRepoRow u info db.nextId]).find?
        (fun x => x.full_name == info.full_name) = some (newRepoRow u info db.nextId) := by
      rw [find?_append_of_none _ hfind]
      rw [List.find?_cons_of_pos]
      simp [newRepoRow]
    have hnil : db.rows.filter (fun x => x.full_name == info.full_name) = [] := by
      rw [List.filter_eq_nil_iff]
      intro x hx
      simpa using hall x hx
    simp [store_repository, hfind, hfind2, List.filter_append, hnil, newRepoRow]

/-- Witness for `store_repository_idempotent`: starting from the empty
store, two stores of the same repository leave exactly one matching
record. -/
theorem store_repository_idempotent_witness :
    (∀ r ∈ ({ rows := [], nextId := 0 } : Database).rows, r.full_name ≠ info0.full_name)
    ∧ ((store_repository "alice" info0
          (store_repository "alice" info0 { rows := [], nextId := 0 }).2).2.rows.filter
            (fun x => x.full_name == info0.full_name)).length = 1 :=
  ⟨by simp, (store_repository_idempotent "alice" info0
    { rows := [], nextId := 0 }).2.2.2 (by simp)⟩

/-! ## Claim C8: malformed search results are dropped -/

/-- C8: a Search Result whose combined text is missing the `url:`
marker — or any of the three markers — is dropped from the rendered
context (the `IndexError` is caught and only a warning is logged), and
dropping it leaves the rendered document identical to the one for the
remaining results alone: the count, content and ordering of the other
lines are unchanged. -/
theorem malformed_result_dropped (xs ys : List (String × ℚ)) (t : String) (s : ℚ)
    (q : String)
    (h : pySplit1 t "name:" = none ∨ pySplit1 t "url:" = none
      ∨ pySplit1 t "content:" = none) :
    format_repo_context (xs ++ (t, s) :: ys) q = format_repo_context (xs ++ ys) q := by
  simp only [format_repo_context, List.filterMap_append, List.filterMap_cons,
    parseRepoLine_none_of_missing t s h]

/-- Witness for `malformed_result_dropped`: a text with no markers at
all is dropped and the surviving entry renders identically. -/
theorem malformed_result_dropped_witness :
    (pySplit1 "no markers at all" "name:" = none
      ∨ pySplit1 "no markers at all" "url:" = none
      ∨ pySplit1 "no markers at all" "content:" = none)
    ∧ format_repo_context
        ([("name: A url: B content: C", mkRat 1 2)] ++ ("no markers at all", mkRat 1 2) :: []) "q"
      = format_repo_context ([("name: A url: B content: C", mkRat 1 2)] ++ []) "q" :=
  ⟨Or.inl (by decide),
   malformed_result_dropped [("name: A url: B content: C", mkRat 1 2)] []
     "no markers at all" (mkRat 1 2) "q" (Or.inl (by decide))⟩

/-! ## Claim C3: generate_response returns the ChatResponse object -/

/-- C3, code bug: with format-only requested, `generate_response`
returns the rendered context string (first conjunct); but on the path
where the provider's chat completion succeeds and format-only is not
requested, it returns the `ChatResponse` object itself (second
conjunct) and in particular no string at all (third conjunct) — in
conflict with its own `-> str` annotation and with test.py's
`assert isinstance(response, str)` (server.py works around it by
extracting `chat_response.message['assistant']`). -/
theorem generate_response_returns_chat_object :
    generate_response { rows := [], nextId := 0 } (fun _ _ => .ok []) provider0 "q" true
        = .ok (PyValue.str (format_repo_context [] "q"))
    ∧ (∃ c : ChatResponse,
        generate_response { rows := [], nextId := 0 } (fun _ _ => .ok []) provider0 "q" false
          = .ok (PyValue.chatResponse c))
    ∧ ∀ s : String,
        generate_response { rows := [], nextId := 0 } (fun _ _ => .ok []) provider0 "q" false
          ≠ .ok (PyValue.str s) := by
  refine ⟨rfl, ⟨_, rfl⟩, fun s hc => ?_⟩
  simp [generate_response, search_for_repos] at hc

end Starsense
